import Mathlib

/-!
# Verification of the WhisperX speech-to-text service core

Shallow embedding of `src/whisper-service/app.py` (Flask service wrapping
WhisperX): the retry/recovery orchestrator around `/transcribe`, the
transcription dispatcher `_do_transcription`, the device-memory reclaimer
`clear_vram` with its `/clear-vram` endpoint, and the bounded retry log
`log_retry_attempt`.

Modelling conventions:
* Python exceptions are `Except String`; a function that catches all
  exceptions and returns a boolean becomes a total Lean function over
  `Except`-valued step oracles.
* The external inference library (whisperx / faster-whisper) is an opaque
  `Backend` record of `Except`-valued functions, as the spec treats it
  ("an opaque external capability: transcribe(audio) -> segments").
* Side effects that the claims observe (VRAM clears, sleeps, model
  restarts, dispatcher invocations, backend calls, temp-file creation and
  deletion, gc) are recorded in an event trace `List Ev` returned next to
  the result.  Logging calls (`logger.*`, `print_vram_usage`) are treated
  as non-failing no-ops and not traced.
* Wall-clock durations (`time.time()`) are not modelled; the `duration`
  field of the success payload is omitted.
-/

deriving instance DecidableEq for Except

namespace WhisperService

/-- Constant `MAX_RETRIES = 3` (app.py line 29). -/
def MAX_RETRIES : Nat := 3

/-- Constant `RETRY_WAIT_AFTER_ERROR = 60` seconds (app.py line 30). -/
def RETRY_WAIT_AFTER_ERROR : Nat := 60

/-- Constant `VRAM_CLEAR_WAIT = 30` seconds (app.py line 31). -/
def VRAM_CLEAR_WAIT : Nat := 30

/-- Default language `LANGUAGE = "de"` (app.py line 119). -/
def LANGUAGE : String := "de"

/-- The fixed format hint (app.py line 122). -/
def FORMAT_PROMPT : String :=
  "Klammern (so wie diese) und Satzzeichen wie Punkt, Komma, Doppelpunkt und Semikolon sind wichtig."

/-! ## Retry log (`log_retry_attempt`, app.py lines 36-48) -/

/-- One entry of `RETRY_LOG`. -/
structure RetryLogEntry where
  timestamp : String
  attempt : Nat
  error : String
  action : String
deriving DecidableEq, Repr

/-- Function `log_retry_attempt` (app.py lines 36-48): append the entry to the log,
then, if the log now holds more than 100 entries, `RETRY_LOG.pop(0)`
removes the oldest one. -/
def log_retry_attempt (log : List RetryLogEntry) (e : RetryLogEntry) :
    List RetryLogEntry :=
  let log' := log ++ [e]
  if log'.length > 100 then log'.drop 1 else log'

/-! ## Device memory reclaimer (`clear_vram`, app.py lines 50-80) -/

/-- Deployment-environment facts fixed at process start:
`DEVICE` (app.py line 114), `MODEL_NAME` from the `WHISPER_MODEL`
environment variable (line 118), whether `torch.cuda` has `ipc_collect`
(line 69), and whether the optional alignment model loaded
(`model_a is not None`, lines 168-175). -/
structure Config where
  device : String
  model_name : String
  has_ipc : Bool
  align_loaded : Bool

/-- Oracles for the individual reclamation steps inside `clear_vram`'s
`try` block; each may raise (modelled as `Except.error`). -/
structure VramSteps where
  gc_collect : Except String Unit
  cuda_synchronize : Except String Unit
  empty_cache : Except String Unit
  ipc_collect : Except String Unit
  reset_peak_memory_stats : Except String Unit

/-- The `try` block of `clear_vram` (app.py lines 57-77): gc, then on
CUDA synchronize, empty cache, optional ipc collect, reset peak stats;
the first step to raise aborts the sequence with its error. -/
def clear_vram_steps (cfg : Config) (s : VramSteps) : Except String Unit := do
  s.gc_collect
  if cfg.device == "cuda" then do
    s.cuda_synchronize
    s.empty_cache
    if cfg.has_ipc then s.ipc_collect else pure ()
    s.reset_peak_memory_stats
  else
    pure ()

/-- Function `clear_vram` (app.py lines 50-80): runs the reclamation steps,
catches any exception from them and returns `false`, else returns
`true`.  Never raises. -/
def clear_vram (cfg : Config) (s : VramSteps) : Bool :=
  match clear_vram_steps cfg s with
  | .ok _ => true
  | .error _ => false

/-- Response body of `/clear-vram` (app.py lines 219-229). -/
structure VramEndpointBody where
  status : String
  message : String
  device : String
deriving DecidableEq, Repr

/-- Endpoint `clear_vram_endpoint` (app.py lines 211-229): `try: success =
clear_vram(); return 200-json ... except: return 500-json`.  The `try`
body is the `Except`-valued computation; since `clear_vram` is total the
`error` branch is the endpoint's 500 path. -/
def clear_vram_endpoint (cfg : Config) (s : VramSteps) :
    Nat × VramEndpointBody :=
  let body : Except String Bool := Except.ok (clear_vram cfg s)
  match body with
  | .ok success =>
      (200,
       { status := if success then "success" else "partial"
         message := if success then "VRAM cleared successfully"
                    else "VRAM clear had issues"
         device := cfg.device })
  | .error e => (500, { status := "error", message := e, device := cfg.device })

/-! ## Transcription dispatcher (`_do_transcription`, app.py lines 407-514) -/

/-- A transcription segment; only its `text` field (`seg.get("text", "")`,
app.py line 494) is observed by the service, so timestamps are elided. -/
structure Segment where
  text : Option String
deriving DecidableEq, Repr

/-- Result of the WhisperX precision call `model.transcribe` (app.py lines
469-477): `result["segments"]` and the optional `result.get("language")`. -/
structure WxResult where
  segments : List Segment
  language : Option String

/-- Decoded audio, reduced to its sample count (`len(audio)`, used only via
`audio_duration = len(audio) / 16000` to pick the batch size). -/
abbrev Audio : Type := Nat

/-- The opaque inference library: `whisperx.load_audio`, the turbo path
`fw_model.transcribe` (segment generator drained to a list, with
`info.language`), the precision path `model.transcribe`, and
`whisperx.align`.  Every call may raise. -/
structure Backend where
  load_audio : List Nat → Except String Audio
  fw_transcribe : Audio → (language : String) → (initial_prompt : String) →
    Except String (List Segment × String)
  wx_transcribe : Audio → (batch_size : Nat) → (language : String) →
    (initial_prompt : String) → Except String WxResult
  align : List Segment → Audio → Except String (List Segment)

/-- The arguments of one `_do_transcription` call (app.py line 407). -/
structure AttemptArgs where
  file_content : List Nat
  filename : String
  language : String
  do_align : Bool
  speed_mode : String
  user_prompt : String
  attempt : Nat
deriving DecidableEq, Repr

/-- Events observed by the claims. -/
inductive Ev where
  /-- Event: `_do_transcription` is entered with these arguments. -/
  | invoke (a : AttemptArgs)
  /-- Event: `clear_vram()` is called. -/
  | clearVram
  /-- Event: `time.sleep(n)`. -/
  | sleep (n : Nat)
  /-- Event: `restart_whisper_models()` is called. -/
  | restart
  /-- Event: `log_retry_attempt(attempt, error, action)`. -/
  | logRetry (attempt : Nat) (error : String) (action : String)
  /-- the temporary decoded-audio file is created (app.py lines 430-433). -/
  | tmpCreate
  /-- the temporary file is deleted (`os.unlink`, app.py line 511). -/
  | tmpDelete
  /-- Event: `gc.collect()` in the `finally` block (app.py line 512). -/
  | gcCollect
  /-- Event: `torch.cuda.empty_cache()` in the `finally` block (app.py line 514). -/
  | emptyCache
  /-- a transcription backend call with the mode used and the
  `initial_prompt` string passed to it. -/
  | modelCall (attempt : Nat) (mode : String) (language : String)
      (initial_prompt : String)
  /-- the `whisperx.align` second pass (app.py lines 482-489). -/
  | alignCall
deriving DecidableEq, Repr

/-- The `initial_prompt` construction (app.py lines 413-417):
`if user_prompt: f"{FORMAT_PROMPT} {user_prompt}" else FORMAT_PROMPT`
(Python string truthiness = non-emptiness). -/
def build_initial_prompt (user_prompt : String) : String :=
  if user_prompt ≠ "" then FORMAT_PROMPT ++ " " ++ user_prompt
  else FORMAT_PROMPT

/-- Python's `str.lower()` (character-wise lowercasing; ASCII is the
relevant alphabet here). -/
def py_lower (s : String) : String := ⟨s.data.map Char.toLower⟩

/-- Python's `str.strip()` with no argument: remove leading and trailing
whitespace. -/
def py_strip (s : String) : String :=
  ⟨((s.data.dropWhile Char.isWhitespace).reverse.dropWhile
      Char.isWhitespace).reverse⟩

/-- Contiguous-occurrence test on character lists: does `needle` occur as
a prefix of some suffix of `hay`?  (Python's `needle in hay`.) -/
def occurs_in : List Char → List Char → Bool
  | needle, [] => needle.isEmpty
  | needle, c :: rest => needle.isPrefixOf (c :: rest) || occurs_in needle rest

/-- Python's `needle in hay` for strings: contiguous-substring test. -/
def str_contains (needle hay : String) : Bool :=
  occurs_in needle.data hay.data

/-- Mode selection (app.py line 420):
`is_turbo = speed_mode == 'turbo' or (speed_mode == 'auto' and 'turbo' in MODEL_NAME.lower())`. -/
def is_turbo (speed_mode model_name : String) : Bool :=
  speed_mode == "turbo" ||
    (speed_mode == "auto" && str_contains "turbo" (py_lower model_name))

/-- Success payload of `/transcribe` (app.py lines 500-507); the
wall-clock `duration` field is not modelled. -/
structure SuccessBody where
  text : String
  segments : List Segment
  language : String
  mode : String
  attempt : Nat
deriving DecidableEq, Repr

/-- Python `" ".join([seg.get("text", "") for seg in segments])` (app.py line 494). -/
def full_text (segments : List Segment) : String :=
  String.intercalate " " (segments.map fun seg => seg.text.getD "")

/-- Assignment `batch_size = 8 if audio_duration < 60 else 16` (app.py line 467),
with `audio_duration = len(audio) / 16000` (line 439): exact since
`len(audio) / 16000 < 60 ↔ len(audio) < 960000`. -/
def batch_size_of (audio : Audio) : Nat :=
  if (audio : Nat) < 60 * 16000 then 8 else 16

/-- Function `_do_transcription` (app.py lines 407-514).  Builds the initial
prompt, picks the mode, writes the temp file, then inside `try`: loads
audio and runs the turbo or precision path; the `finally` block deletes
the temp file and runs gc (plus `empty_cache` on CUDA) on every exit
path, so its events are appended whether the body returned or raised.
The `os.path.exists` guard before `os.unlink` always holds: nothing
removes the file inside the `try` body. -/
def do_transcription (cfg : Config) (b : Backend) (a : AttemptArgs) :
    Except String SuccessBody × List Ev :=
  let initial_prompt := build_initial_prompt a.user_prompt
  let turbo := is_turbo a.speed_mode cfg.model_name
  let body : Except String SuccessBody × List Ev :=
    match b.load_audio a.file_content with
    | .error e => (.error e, [])
    | .ok audio =>
      if turbo then
        match b.fw_transcribe audio a.language initial_prompt with
        | .error e =>
            (.error e, [Ev.modelCall a.attempt "turbo" a.language initial_prompt])
        | .ok (segments, detected_language) =>
            (.ok { text := py_strip (full_text segments)
                   segments := segments
                   language := detected_language
                   mode := "turbo"
                   attempt := a.attempt },
             [Ev.modelCall a.attempt "turbo" a.language initial_prompt])
      else
        match b.wx_transcribe audio (batch_size_of audio) a.language initial_prompt with
        | .error e =>
            (.error e, [Ev.modelCall a.attempt "precision" a.language initial_prompt])
        | .ok r =>
            let detected_language := r.language.getD a.language
            if a.do_align && cfg.align_loaded then
              match b.align r.segments audio with
              | .error e =>
                  (.error e,
                   [Ev.modelCall a.attempt "precision" a.language initial_prompt,
                    Ev.alignCall])
              | .ok aligned =>
                  (.ok { text := py_strip (full_text aligned)
                         segments := aligned
                         language := detected_language
                         mode := "precision"
                         attempt := a.attempt },
                   [Ev.modelCall a.attempt "precision" a.language initial_prompt,
                    Ev.alignCall])
            else
              (.ok { text := py_strip (full_text r.segments)
                     segments := r.segments
                     language := detected_language
                     mode := "precision"
                     attempt := a.attempt },
               [Ev.modelCall a.attempt "precision" a.language initial_prompt])
  (body.fst,
   [Ev.invoke a, Ev.tmpCreate] ++ body.snd ++
     [Ev.tmpDelete, Ev.gcCollect] ++
     (if cfg.device == "cuda" then [Ev.emptyCache] else []))

/-! ## `/transcribe` handler (app.py lines 320-404) -/

/-- The uploaded multipart file: `request.files['file']`. -/
structure UploadedFile where
  filename : String
  content : List Nat
deriving DecidableEq, Repr

/-- The parts of the incoming HTTP request that `/transcribe` reads:
the optional `file` part and the optional form fields (absent field =
`none`; `request.form.get(k, d)` becomes `getD d`). -/
structure HttpRequest where
  file : Option UploadedFile
  language : Option String
  align : Option String
  speed_mode : Option String
  initial_prompt : Option String
deriving DecidableEq, Repr

/-- Assignment `do_align = request.form.get('align', 'true').lower() == 'true'`
(app.py line 359). -/
def parse_do_align (align_field : Option String) : Bool :=
  py_lower (align_field.getD "true") == "true"

/-- The request payload captured before the retry loop (app.py lines
352-361), fixed for all attempts. -/
structure Params where
  file_content : List Nat
  filename : String
  language : String
  do_align : Bool
  speed_mode : String
  user_prompt : String
deriving DecidableEq, Repr

/-- The payload with an attempt number, as passed to `_do_transcription`
(app.py lines 367-375). -/
def Params.toArgs (p : Params) (attempt : Nat) : AttemptArgs :=
  { file_content := p.file_content
    filename := p.filename
    language := p.language
    do_align := p.do_align
    speed_mode := p.speed_mode
    user_prompt := p.user_prompt
    attempt := attempt }

/-- The request payload as captured by `transcribe` (app.py lines
352-361): file bytes and filename read once before the loop, form fields
with their defaults. -/
def request_params (req : HttpRequest) (f : UploadedFile) : Params :=
  { file_content := f.content
    filename := f.filename
    language := req.language.getD LANGUAGE
    do_align := parse_do_align req.align
    speed_mode := req.speed_mode.getD "auto"
    user_prompt := req.initial_prompt.getD "" }

/-- The payload carried by an `_do_transcription` invocation, with the
attempt number forgotten. -/
def AttemptArgs.payload (a : AttemptArgs) : Params :=
  { file_content := a.file_content
    filename := a.filename
    language := a.language
    do_align := a.do_align
    speed_mode := a.speed_mode
    user_prompt := a.user_prompt }

/-- A `/transcribe` response body: the 400 validation bodies
(`{'error': ...}`), the 500 exhaustion body (app.py lines 400-404), or
the 200 success body. -/
inductive HttpBody where
  | validationError (error : String)
  | exhausted (error : String) (message : String) (attempts : Nat)
  | success (b : SuccessBody)
deriving DecidableEq, Repr

/-- The retry loop of `transcribe` (app.py lines 363-404):
`for attempt in range(1, MAX_RETRIES + 1)` with `fuel` remaining
iterations.  On success the result is returned; on failure the attempt is
logged and, when `attempt < MAX_RETRIES`, VRAM is cleared, the models are
restarted and the loop sleeps `RETRY_WAIT_AFTER_ERROR` seconds before the
next attempt.  When the loop ends, the exhaustion 500 is returned
(`last_error` starts as Python `None`, rendered `"None"` — unreachable
while `MAX_RETRIES ≥ 1`).

The inference library is stateful across restarts, so the backend is a
family `bf : Nat → Backend` indexed by the attempt number: attempt `n`
runs against `bf n`. -/
def transcribe_loop (cfg : Config) (bf : Nat → Backend) (p : Params) :
    Nat → Nat → Option String → (Nat × HttpBody) × List Ev
  | 0, _, last_error =>
      ((500, .exhausted "Transcription failed after all retries"
          (last_error.getD "None") MAX_RETRIES),
       [Ev.logRetry MAX_RETRIES (last_error.getD "None") "all_attempts_exhausted"])
  | fuel + 1, attempt, _ =>
      let res := do_transcription cfg (bf attempt) (p.toArgs attempt)
      match res.fst with
      | .ok body => ((200, .success body), res.snd)
      | .error e =>
          let failLog := [Ev.logRetry attempt e "transcription_failed"]
          let recovery :=
            if attempt < MAX_RETRIES then
              [Ev.logRetry attempt e "clearing_vram", Ev.clearVram,
               Ev.logRetry attempt e "restarting_whisper", Ev.restart,
               Ev.logRetry attempt e
                 ("waiting_" ++ toString RETRY_WAIT_AFTER_ERROR ++ "s"),
               Ev.sleep RETRY_WAIT_AFTER_ERROR]
            else []
          let rest := transcribe_loop cfg bf p fuel (attempt + 1) (some e)
          (rest.fst, res.snd ++ failLog ++ recovery ++ rest.snd)

/-- The `/transcribe` handler (app.py lines 320-404).  It first clears
VRAM and sleeps `VRAM_CLEAR_WAIT` seconds (lines 338-342), then validates
the `file` part (400 on absence or empty filename, lines 345-350), reads
the form fields with their defaults (lines 357-361), and runs the retry
loop. -/
def transcribe (cfg : Config) (bf : Nat → Backend) (req : HttpRequest) :
    (Nat × HttpBody) × List Ev :=
  let pre := [Ev.clearVram, Ev.sleep VRAM_CLEAR_WAIT]
  match req.file with
  | none => ((400, .validationError "No file provided"), pre)
  | some f =>
      if f.filename = "" then ((400, .validationError "Empty filename"), pre)
      else
        let run := transcribe_loop cfg bf (request_params req f) MAX_RETRIES 1 none
        (run.fst, pre ++ run.snd)

/-! ## Concrete instances used to exercise the model -/

/-- A CUDA deployment with the default model name (`WHISPER_MODEL` unset:
`"large-v2"`), `ipc_collect` available, alignment model loaded. -/
def cudaConfig : Config :=
  { device := "cuda", model_name := "large-v2", has_ipc := true,
    align_loaded := true }

/-- A backend on which every call succeeds, producing two fixed
segments. -/
def okBackend : Backend :=
  { load_audio := fun content => .ok content.length
    fw_transcribe := fun _ _ _ =>
      .ok ([{ text := some "Hallo" }, { text := some "Welt." }], "de")
    wx_transcribe := fun _ _ _ _ =>
      .ok { segments := [{ text := some " Hallo" }, { text := some "Welt." }]
            language := some "de" }
    align := fun segs _ => .ok segs }

/-- A backend on which every call raises. -/
def failBackend (msg : String) : Backend :=
  { load_audio := fun _ => .error msg
    fw_transcribe := fun _ _ _ => .error msg
    wx_transcribe := fun _ _ _ _ => .error msg
    align := fun _ _ => .error msg }

/-- A backend family that always fails, with an attempt-dependent error
message. -/
def alwaysFail : Nat → Backend :=
  fun attempt => failBackend ("CUDA error in attempt " ++ toString attempt)

/-- A well-formed multipart request: a file plus defaults. -/
def okRequest : HttpRequest :=
  { file := some { filename := "clip.wav", content := [0, 1, 2] }
    language := none, align := none, speed_mode := none,
    initial_prompt := none }

/-- A request whose multipart form has no `file` part. -/
def noFileRequest : HttpRequest :=
  { file := none, language := none, align := none, speed_mode := none,
    initial_prompt := none }

/-- Is this event a dispatcher invocation? -/
def Ev.isInvoke : Ev → Bool
  | .invoke _ => true
  | _ => false

/-- Is this event a model restart? -/
def Ev.isRestart : Ev → Bool
  | .restart => true
  | _ => false

/-- Number of dispatcher invocations (= transcription attempts) in a
trace. -/
def count_attempts (tr : List Ev) : Nat :=
  tr.countP Ev.isInvoke

/-- Number of model restarts in a trace. -/
def count_restarts (tr : List Ev) : Nat :=
  tr.countP Ev.isRestart

/-- Reclamation steps that all succeed. -/
def goodSteps : VramSteps :=
  { gc_collect := .ok (), cuda_synchronize := .ok (), empty_cache := .ok ()
    ipc_collect := .ok (), reset_peak_memory_stats := .ok () }

/-- Reclamation steps whose cache release raises. -/
def badSteps : VramSteps :=
  { goodSteps with empty_cache := .error "CUDA driver error" }

/-- The uploaded file of `okRequest`. -/
def okFile : UploadedFile := { filename := "clip.wav", content := [0, 1, 2] }

/-- A concrete turbo-mode attempt with a caller-supplied prompt. -/
def witnessArgs : AttemptArgs :=
  { file_content := [0, 1, 2], filename := "clip.wav", language := "de"
    do_align := false, speed_mode := "turbo", user_prompt := "Gastroskopie"
    attempt := 1 }

/-- The dispatcher result of `okBackend` on `witnessArgs`. -/
def witnessSuccess : SuccessBody :=
  { text := "Hallo Welt."
    segments := [{ text := some "Hallo" }, { text := some "Welt." }]
    language := "de", mode := "turbo", attempt := 1 }

/-- The (single) backend transcription call an attempt makes, with the
mode actually used and the prompt actually passed. -/
def attempt_model_call (cfg : Config) (a : AttemptArgs) : Ev :=
  Ev.modelCall a.attempt
    (if is_turbo a.speed_mode cfg.model_name then "turbo" else "precision")
    a.language (build_initial_prompt a.user_prompt)

/-! ## Helper lemmas -/

/-- Shape of a dispatcher trace: on every execution — whatever the
backend does — the trace is the invocation and temp-file creation,
then backend calls, then the `finally` block's temp-file deletion and
memory reclamation. -/
theorem do_transcription_trace_shape (cfg : Config) (b : Backend) (a : AttemptArgs) :
    ∃ mid : List Ev,
      (do_transcription cfg b a).snd =
        [Ev.invoke a, Ev.tmpCreate] ++ mid ++ [Ev.tmpDelete, Ev.gcCollect] ++
          (if cfg.device == "cuda" then [Ev.emptyCache] else []) ∧
      ∀ ev ∈ mid, ev = attempt_model_call cfg a ∨ ev = Ev.alignCall := by
  rcases hl : b.load_audio a.file_content with e | audio
  · exact ⟨[], by simp [do_transcription, hl], by simp⟩
  · cases ht : is_turbo a.speed_mode cfg.model_name
    · rcases hw : b.wx_transcribe audio (batch_size_of audio) a.language
          (build_initial_prompt a.user_prompt) with e | r
      · exact ⟨[Ev.modelCall a.attempt "precision" a.language
          (build_initial_prompt a.user_prompt)],
          by simp [do_transcription, hl, ht, hw, attempt_model_call], by simp [attempt_model_call, ht]⟩
      · cases ha : a.do_align && cfg.align_loaded
        · exact ⟨[Ev.modelCall a.attempt "precision" a.language
            (build_initial_prompt a.user_prompt)],
            by simp [do_transcription, hl, ht, hw, ha, attempt_model_call],
            by simp [attempt_model_call, ht]⟩
        · rcases hal : b.align r.segments audio with e | aligned
          · exact ⟨[Ev.modelCall a.attempt "precision" a.language
              (build_initial_prompt a.user_prompt), Ev.alignCall],
              by simp [do_transcription, hl, ht, hw, ha, hal, attempt_model_call],
              by simp [attempt_model_call, ht]⟩
          · exact ⟨[Ev.modelCall a.attempt "precision" a.language
              (build_initial_prompt a.user_prompt), Ev.alignCall],
              by simp [do_transcription, hl, ht, hw, ha, hal, attempt_model_call],
              by simp [attempt_model_call, ht]⟩
    · rcases hf : b.fw_transcribe audio a.language (build_initial_prompt a.user_prompt)
        with e | ⟨segs, lang⟩
      · exact ⟨[Ev.modelCall a.attempt "turbo" a.language
          (build_initial_prompt a.user_prompt)],
          by simp [do_transcription, hl, ht, hf, attempt_model_call],
          by simp [attempt_model_call, ht]⟩
      · exact ⟨[Ev.modelCall a.attempt "turbo" a.language
          (build_initial_prompt a.user_prompt)],
          by simp [do_transcription, hl, ht, hf, attempt_model_call],
          by simp [attempt_model_call, ht]⟩

/-- Every backend transcription call of an attempt carries the attempt
number, the selected mode, the request language and the built prompt. -/
theorem modelCall_mem_fields (cfg : Config) (b : Backend) (a : AttemptArgs)
    {n : Nat} {m l p : String}
    (h : Ev.modelCall n m l p ∈ (do_transcription cfg b a).snd) :
    n = a.attempt ∧
    m = (if is_turbo a.speed_mode cfg.model_name then "turbo" else "precision") ∧
    l = a.language ∧ p = build_initial_prompt a.user_prompt := by
  obtain ⟨mid, htr, hmid⟩ := do_transcription_trace_shape cfg b a
  rw [htr] at h
  have h' : Ev.modelCall n m l p ∈ mid := by
    cases hdev : cfg.device == "cuda" <;> rw [hdev] at h <;> simp at h <;> exact h
  rcases hmid _ h' with hc | hc
  · rw [attempt_model_call] at hc
    injection hc with h1 h2 h3 h4
    exact ⟨h1, h2, h3, h4⟩
  · exact absurd hc (by simp)

/-- The only invocation event in a dispatcher trace is the dispatcher's
own. -/
theorem invoke_mem_do_transcription (cfg : Config) (b : Backend)
    (a a' : AttemptArgs) (h : Ev.invoke a' ∈ (do_transcription cfg b a).snd) :
    a' = a := by
  obtain ⟨mid, htr, hmid⟩ := do_transcription_trace_shape cfg b a
  rw [htr] at h
  have h' : a' = a ∨ Ev.invoke a' ∈ mid := by
    cases hdev : cfg.device == "cuda" <;> rw [hdev] at h <;> simp at h <;> exact h
  rcases h' with h' | h'
  · exact h'
  · rcases hmid _ h' with hc | hc <;> exact absurd hc (by simp [attempt_model_call])

/-- The middle section of a dispatcher trace holds neither invocations
nor restarts. -/
theorem mid_countP_zero (cfg : Config) (a : AttemptArgs) (mid : List Ev)
    (hmid : ∀ ev ∈ mid, ev = attempt_model_call cfg a ∨ ev = Ev.alignCall)
    (q : Ev → Bool) (hq1 : ∀ x y z w, q (Ev.modelCall x y z w) = false)
    (hq2 : q Ev.alignCall = false) : mid.countP q = 0 := by
  rw [List.countP_eq_zero]
  intro ev hev
  rcases hmid _ hev with h' | h' <;> simp [h', attempt_model_call, hq1, hq2]

/-- Each dispatcher call contributes exactly one attempt to a trace. -/
theorem count_attempts_do_transcription (cfg : Config) (b : Backend)
    (a : AttemptArgs) : count_attempts (do_transcription cfg b a).snd = 1 := by
  obtain ⟨mid, htr, hmid⟩ := do_transcription_trace_shape cfg b a
  rw [count_attempts, htr]
  have hmid0 : mid.countP Ev.isInvoke = 0 :=
    mid_countP_zero cfg a mid hmid _ (by intros; rfl) rfl
  cases hdev : cfg.device == "cuda" <;>
    simp [hdev, List.countP_append, List.countP_cons, hmid0, Ev.isInvoke]

/-- A dispatcher call never restarts models. -/
theorem count_restarts_do_transcription (cfg : Config) (b : Backend)
    (a : AttemptArgs) : count_restarts (do_transcription cfg b a).snd = 0 := by
  obtain ⟨mid, htr, hmid⟩ := do_transcription_trace_shape cfg b a
  rw [count_restarts, htr]
  have hmid0 : mid.countP Ev.isRestart = 0 :=
    mid_countP_zero cfg a mid hmid _ (by intros; rfl) rfl
  cases hdev : cfg.device == "cuda" <;>
    simp [hdev, List.countP_append, List.countP_cons, hmid0, Ev.isRestart]

/-- One capped append preserves the "last 100 entries" invariant. -/
theorem log_retry_attempt_suffix (l : List RetryLogEntry) (e : RetryLogEntry) :
    log_retry_attempt (l.drop (l.length - 100)) e =
      (l ++ [e]).drop ((l ++ [e]).length - 100) := by
  simp only [log_retry_attempt, List.length_append, List.length_drop,
    List.length_cons, List.length_nil]
  by_cases h : l.length < 100
  · have h1 : l.length - 100 = 0 := by omega
    rw [h1, if_neg (by omega)]
    have h2 : l.length + (0 + 1) - 100 = 0 := by omega
    rw [List.drop_zero, h2, List.drop_zero]
  · push_neg at h
    rw [if_pos (by omega)]
    rw [List.drop_append_of_le_length (by simp [List.length_drop]; omega),
      List.drop_drop,
      List.drop_append_of_le_length (by omega)]
    congr 2
    omega

/-- C5: every sequence of retry-log appends leaves the log holding
exactly the (at most) 100 most recently appended entries, in append
order, with the oldest evicted first once more than 100 events have been
logged. -/
theorem retry_log_fifo_cap (es : List RetryLogEntry) :
    es.foldl log_retry_attempt [] = es.drop (es.length - 100) ∧
    (es.foldl log_retry_attempt []).length = min es.length 100 := by
  have main : ∀ es : List RetryLogEntry,
      es.foldl log_retry_attempt [] = es.drop (es.length - 100) := by
    intro es
    induction es using List.reverseRecOn with
    | nil => rfl
    | append_singleton l e ih =>
        rw [List.foldl_append, List.foldl_cons, List.foldl_nil, ih]
        exact log_retry_attempt_suffix l e
  refine ⟨main es, ?_⟩
  rw [main es, List.length_drop]
  omega

/-- C3: on every transcription attempt, both paths, the initial prompt
passed to the backend is the fixed format hint followed (after a space)
by the caller's prompt when one was supplied, and exactly the format
hint otherwise; in particular the format hint is always a prefix of it. -/
theorem format_hint_always_prefixed (cfg : Config) (b : Backend)
    (a : AttemptArgs) (n : Nat) (m l p : String)
    (h : Ev.modelCall n m l p ∈ (do_transcription cfg b a).snd) :
    (a.user_prompt ≠ "" → p = FORMAT_PROMPT ++ " " ++ a.user_prompt) ∧
    (a.user_prompt = "" → p = FORMAT_PROMPT) ∧
    ∃ rest, p = FORMAT_PROMPT ++ rest := by
  obtain ⟨-, -, -, hp⟩ := modelCall_mem_fields cfg b a h
  rw [hp, build_initial_prompt]
  by_cases hu : a.user_prompt = ""
  · rw [if_neg (by simp [hu])]
    exact ⟨fun hne => absurd hu hne, fun _ => rfl,
      ⟨"", (String.append_empty _).symm⟩⟩
  · rw [if_pos hu]
    exact ⟨fun _ => rfl, fun he => absurd he hu, ⟨" " ++ a.user_prompt, rfl⟩⟩

/-- Characterization of the mode-selection test (app.py line 420). -/
theorem is_turbo_iff (speed_mode model_name : String) :
    is_turbo speed_mode model_name = true ↔
      speed_mode = "turbo" ∨
        (speed_mode = "auto" ∧
          str_contains "turbo" (py_lower model_name) = true) := by
  simp [is_turbo, Bool.or_eq_true, Bool.and_eq_true, beq_iff_eq]

/-- C4: an attempt runs in fast (turbo) mode exactly when the request
asks for it or the mode is auto and the model identifier contains
"turbo" case-insensitively; an explicit precision request always runs
the precision path. -/
theorem turbo_mode_selection (cfg : Config) (b : Backend) (a : AttemptArgs)
    (n : Nat) (m l p : String)
    (h : Ev.modelCall n m l p ∈ (do_transcription cfg b a).snd) :
    (m = "turbo" ↔
      a.speed_mode = "turbo" ∨
        (a.speed_mode = "auto" ∧
          str_contains "turbo" (py_lower cfg.model_name) = true)) ∧
    (a.speed_mode = "precision" → m = "precision") := by
  obtain ⟨-, hm, -, -⟩ := modelCall_mem_fields cfg b a h
  constructor
  · rw [← is_turbo_iff, hm]
    cases ht : is_turbo a.speed_mode cfg.model_name <;> simp
  · intro hs
    rw [hm, hs]
    have : is_turbo "precision" cfg.model_name = false := rfl
    rw [this, if_neg (by simp)]

/-- Every successful dispatcher result builds its `text` by joining and
stripping its own `segments`. -/
theorem do_transcription_ok_text (cfg : Config) (b : Backend)
    (a : AttemptArgs) (r : SuccessBody)
    (h : (do_transcription cfg b a).fst = .ok r) :
    r.text = py_strip (full_text r.segments) := by
  unfold do_transcription at h
  dsimp only at h
  split at h
  · simp at h
  · split at h
    · split at h
      · simp at h
      · simp only [Except.ok.injEq] at h
        subst h
        rfl
    · split at h
      · simp at h
      · split at h
        · split at h
          · simp at h
          · simp only [Except.ok.injEq] at h
            subst h
            rfl
        · simp only [Except.ok.injEq] at h
          subst h
          rfl

/-- C9: the `text` of every successful transcription equals its segments'
texts (empty for a segment without one) joined with single spaces and
stripped; an empty segment list yields the empty string. -/
theorem success_text_joins_segments (cfg : Config) (b : Backend)
    (a : AttemptArgs) (r : SuccessBody)
    (h : (do_transcription cfg b a).fst = .ok r) :
    r.text = py_strip (String.intercalate " "
      (r.segments.map fun seg => seg.text.getD "")) ∧
    (r.segments = [] → r.text = "") := by
  have key := do_transcription_ok_text cfg b a r h
  rw [full_text] at key
  refine ⟨key, fun hseg => ?_⟩
  rw [key, hseg]
  rfl

/-- C10: alignment is requested exactly when the `align` form field is
absent or its value lowercases to the string "true"; other spellings,
including "1", "yes" and "TRUE " with a trailing space, disable it. -/
theorem align_flag_only_true_spelling (v : String) :
    parse_do_align none = true ∧
    (parse_do_align (some v) = true ↔ py_lower v = "true") ∧
    parse_do_align (some "1") = false ∧
    parse_do_align (some "yes") = false ∧
    parse_do_align (some "TRUE ") = false := by
  refine ⟨by decide, ?_, by decide, by decide, by decide⟩
  rw [parse_do_align]
  simp [beq_iff_eq]

/-- C7: the device-memory reclaimer returns `false` exactly when one of
its steps raises and `true` otherwise, never propagating the exception;
hence every call of a sequence of `/clear-vram` requests answers 200
with status "success" or "partial", and the endpoint's 500 branch is
dead. -/
theorem clear_vram_total_endpoint_defined (cfg : Config)
    (calls : List VramSteps) (s : VramSteps) :
    (clear_vram cfg s = true ↔ ∃ u, clear_vram_steps cfg s = .ok u) ∧
    (clear_vram cfg s = false ↔ ∃ e, clear_vram_steps cfg s = .error e) ∧
    ∀ c ∈ calls, (clear_vram_endpoint cfg c).fst = 200 ∧
      ((clear_vram_endpoint cfg c).snd.status = "success" ∨
       (clear_vram_endpoint cfg c).snd.status = "partial") := by
  refine ⟨?_, ?_, ?_⟩
  · rw [clear_vram]
    rcases clear_vram_steps cfg s with e | u <;> simp
  · rw [clear_vram]
    rcases clear_vram_steps cfg s with e | u <;> simp
  · intro c _
    rw [clear_vram_endpoint]
    cases hc : clear_vram cfg c <;> simp [hc]

/-- C1 (amended): a `/transcribe` request with no file part or an empty
filename is answered 400 with an error body and no transcription attempt
or model call happens; but the handler's unconditional device-memory
reclamation and post-clear wait do run before the 400 — its whole trace
is exactly the VRAM clear and the sleep. -/
theorem missing_file_400_no_attempt (cfg : Config) (bf : Nat → Backend)
    (req : HttpRequest)
    (h : req.file = none ∨ ∃ f, req.file = some f ∧ f.filename = "") :
    (transcribe cfg bf req).fst.fst = 400 ∧
    (∃ msg, (transcribe cfg bf req).fst.snd = .validationError msg) ∧
    (transcribe cfg bf req).snd = [Ev.clearVram, Ev.sleep VRAM_CLEAR_WAIT] := by
  rcases h with h | ⟨f, hf, hname⟩
  · rw [transcribe, h]
    exact ⟨rfl, ⟨"No file provided", rfl⟩, rfl⟩
  · rw [transcribe, hf]
    dsimp only
    rw [if_pos hname]
    exact ⟨rfl, ⟨"Empty filename", rfl⟩, rfl⟩

/-- C1 counterexample: on a concrete file-less request the response is
the 400, yet a device-memory reclamation has already run while handling
it — refuting the claim that no reclamation occurs before the 400. -/
theorem missing_file_still_clears_vram :
    (transcribe cudaConfig alwaysFail noFileRequest).fst.fst = 400 ∧
    Ev.clearVram ∈ (transcribe cudaConfig alwaysFail noFileRequest).snd := by
  decide

/-- C1 witness: the amended statement at the concrete file-less request. -/
theorem missing_file_400_no_attempt_witness :
    (transcribe cudaConfig (fun _ => okBackend) noFileRequest).fst.fst = 400 ∧
    (∃ msg, (transcribe cudaConfig (fun _ => okBackend) noFileRequest).fst.snd =
      HttpBody.validationError msg) ∧
    (transcribe cudaConfig (fun _ => okBackend) noFileRequest).snd =
      [Ev.clearVram, Ev.sleep VRAM_CLEAR_WAIT] :=
  missing_file_400_no_attempt cudaConfig (fun _ => okBackend) noFileRequest
    (Or.inl rfl)

/-- C6: every dispatcher execution — normal return or an exception
raised at audio loading, the backend call or alignment — deletes the
temporary decoded-audio file it created and triggers the best-effort
memory reclamation before the attempt returns or the exception
propagates: whatever the backend does, the trace puts the deletion and
the gc (plus the CUDA cache release) after everything else, and the file
is created and deleted exactly once. -/
theorem cleanup_on_every_exit_path (cfg : Config) (b : Backend)
    (a : AttemptArgs) :
    ∃ calls : List Ev,
      (do_transcription cfg b a).snd =
        [Ev.invoke a, Ev.tmpCreate] ++ calls ++ [Ev.tmpDelete, Ev.gcCollect] ++
          (if cfg.device == "cuda" then [Ev.emptyCache] else []) ∧
      Ev.tmpCreate ∉ calls ∧ Ev.tmpDelete ∉ calls := by
  obtain ⟨mid, htr, hmid⟩ := do_transcription_trace_shape cfg b a
  refine ⟨mid, htr, ?_, ?_⟩ <;> intro hmem <;>
    rcases hmid _ hmem with h' | h' <;> simp [attempt_model_call] at h'

/-- Every dispatcher invocation made by the retry loop carries the
loop's fixed payload. -/
theorem invoke_mem_loop (cfg : Config) (bf : Nat → Backend) (p : Params) :
    ∀ (fuel attempt : Nat) (le : Option String) (a : AttemptArgs),
    Ev.invoke a ∈ (transcribe_loop cfg bf p fuel attempt le).snd →
    a.payload = p := by
  intro fuel
  induction fuel with
  | zero =>
      intro attempt le a h
      rw [transcribe_loop] at h
      simp at h
  | succ k ih =>
      intro attempt le a h
      rw [transcribe_loop] at h
      dsimp only at h
      rcases hres : (do_transcription cfg (bf attempt) (p.toArgs attempt)).fst
          with e | body <;> rw [hres] at h <;> dsimp only at h
      · simp only [List.mem_append] at h
        rcases h with ((h | h) | h) | h
        · have := invoke_mem_do_transcription cfg (bf attempt) (p.toArgs attempt) a h
          rw [this]
          rfl
        · simp at h
        · revert h
          split <;> simp
        · exact ih (attempt + 1) (some e) a h
      · have := invoke_mem_do_transcription cfg (bf attempt) (p.toArgs attempt) a h
        rw [this]
        rfl

/-- C8: any two dispatcher invocations made while serving one
`/transcribe` request agree on the whole payload — file bytes, filename,
language, align flag, speed mode and user prompt; only the attempt
number can differ. -/
theorem retry_payload_immutable (cfg : Config) (bf : Nat → Backend)
    (req : HttpRequest) (a1 a2 : AttemptArgs)
    (h1 : Ev.invoke a1 ∈ (transcribe cfg bf req).snd)
    (h2 : Ev.invoke a2 ∈ (transcribe cfg bf req).snd) :
    a1.file_content = a2.file_content ∧ a1.filename = a2.filename ∧
    a1.language = a2.language ∧ a1.do_align = a2.do_align ∧
    a1.speed_mode = a2.speed_mode ∧ a1.user_prompt = a2.user_prompt := by
  rcases hfile : req.file with _ | f
  · rw [transcribe, hfile] at h1
    simp at h1
  · rw [transcribe, hfile] at h1 h2
    dsimp only at h1 h2
    by_cases hname : f.filename = ""
    · rw [if_pos hname] at h1
      simp at h1
    · rw [if_neg hname] at h1 h2
      dsimp only at h1 h2
      have k1 : a1.payload = request_params req f := by
        rcases List.mem_append.mp h1 with h | h
        · simp at h
        · exact invoke_mem_loop cfg bf _ _ _ _ _ h
      have k2 : a2.payload = request_params req f := by
        rcases List.mem_append.mp h2 with h | h
        · simp at h
        · exact invoke_mem_loop cfg bf _ _ _ _ _ h
      have hpay : a1.payload = a2.payload := k1.trans k2.symm
      exact ⟨congrArg Params.file_content hpay, congrArg Params.filename hpay,
        congrArg Params.language hpay, congrArg Params.do_align hpay,
        congrArg Params.speed_mode hpay, congrArg Params.user_prompt hpay⟩

/-- One failing iteration of the retry loop, as an equation. -/
theorem transcribe_loop_fail_step (cfg : Config) (bf : Nat → Backend)
    (p : Params) (k attempt : Nat) (lerr : Option String) (e : String)
    (he : (do_transcription cfg (bf attempt) (p.toArgs attempt)).fst = .error e) :
    transcribe_loop cfg bf p (k + 1) attempt lerr =
      ((transcribe_loop cfg bf p k (attempt + 1) (some e)).fst,
       (do_transcription cfg (bf attempt) (p.toArgs attempt)).snd ++
         [Ev.logRetry attempt e "transcription_failed"] ++
         (if attempt < MAX_RETRIES then
            [Ev.logRetry attempt e "clearing_vram", Ev.clearVram,
             Ev.logRetry attempt e "restarting_whisper", Ev.restart,
             Ev.logRetry attempt e
               ("waiting_" ++ toString RETRY_WAIT_AFTER_ERROR ++ "s"),
             Ev.sleep RETRY_WAIT_AFTER_ERROR]
          else []) ++
         (transcribe_loop cfg bf p k (attempt + 1) (some e)).snd) := by
  rw [transcribe_loop]
  dsimp only
  rw [he]

/-- A run of the retry loop on which every remaining attempt fails:
it returns the exhaustion 500 carrying the final attempt's error
verbatim and the attempt cap, makes exactly one dispatcher attempt per
remaining iteration, and restarts the models after every failure but
the last. -/
theorem transcribe_loop_all_fail (cfg : Config) (bf : Nat → Backend)
    (p : Params) :
    ∀ (fuel attempt : Nat) (lerr : Option String),
    1 ≤ fuel →
    attempt + fuel = MAX_RETRIES + 1 →
    (∀ n, attempt ≤ n → n ≤ MAX_RETRIES →
      ∃ e, (do_transcription cfg (bf n) (p.toArgs n)).fst = .error e) →
    ∃ elast,
      (do_transcription cfg (bf MAX_RETRIES) (p.toArgs MAX_RETRIES)).fst =
        .error elast ∧
      (transcribe_loop cfg bf p fuel attempt lerr).fst =
        (500, .exhausted "Transcription failed after all retries" elast
          MAX_RETRIES) ∧
      count_attempts (transcribe_loop cfg bf p fuel attempt lerr).snd = fuel ∧
      count_restarts (transcribe_loop cfg bf p fuel attempt lerr).snd =
        fuel - 1 := by
  intro fuel
  induction fuel with
  | zero =>
      intro attempt lerr h1 _ _
      exact absurd h1 (by omega)
  | succ k ih =>
      intro attempt lerr _ hsum hfail
      obtain ⟨e, he⟩ := hfail attempt (Nat.le_refl _) (by omega)
      have hstep := transcribe_loop_fail_step cfg bf p k attempt lerr e he
      by_cases hk : k = 0
      · subst hk
        have hatt : attempt = MAX_RETRIES := by
          rw [MAX_RETRIES] at hsum ⊢
          omega
        subst hatt
        refine ⟨e, he, ?_, ?_, ?_⟩ <;> rw [hstep]
        · rw [transcribe_loop]
          rfl
        · rw [count_attempts]
          simp only [List.countP_append]
          rw [if_neg (by omega)]
          have h1 : (do_transcription cfg (bf MAX_RETRIES)
              (p.toArgs MAX_RETRIES)).snd.countP Ev.isInvoke = 1 :=
            count_attempts_do_transcription cfg (bf MAX_RETRIES)
              (p.toArgs MAX_RETRIES)
          rw [transcribe_loop]
          simp [h1, Ev.isInvoke]
        · rw [count_restarts]
          simp only [List.countP_append]
          rw [if_neg (by omega)]
          have h1 : (do_transcription cfg (bf MAX_RETRIES)
              (p.toArgs MAX_RETRIES)).snd.countP Ev.isRestart = 0 :=
            count_restarts_do_transcription cfg (bf MAX_RETRIES)
              (p.toArgs MAX_RETRIES)
          rw [transcribe_loop]
          simp [h1, Ev.isRestart]
      · have hlt : attempt < MAX_RETRIES := by omega
        obtain ⟨elast, helast, hfst, hca, hcr⟩ :=
          ih (attempt + 1) (some e) (by omega) (by omega)
            (fun n hn1 hn2 => hfail n (by omega) hn2)
        refine ⟨elast, helast, ?_, ?_, ?_⟩ <;> rw [hstep]
        · exact hfst
        · rw [count_attempts]
          simp only [List.countP_append]
          rw [if_pos hlt]
          have h1 : (do_transcription cfg (bf attempt)
              (p.toArgs attempt)).snd.countP Ev.isInvoke = 1 :=
            count_attempts_do_transcription cfg (bf attempt) (p.toArgs attempt)
          rw [count_attempts] at hca
          simp [h1, hca, Ev.isInvoke]
          omega
        · rw [count_restarts]
          simp only [List.countP_append]
          rw [if_pos hlt]
          have h1 : (do_transcription cfg (bf attempt)
              (p.toArgs attempt)).snd.countP Ev.isRestart = 0 :=
            count_restarts_do_transcription cfg (bf attempt) (p.toArgs attempt)
          rw [count_restarts] at hcr
          simp [h1, hcr, Ev.isRestart]
          omega

/-- C2: when the underlying transcription fails on all tries, the
handler makes exactly `MAX_RETRIES` attempts, performs exactly
`MAX_RETRIES - 1` model restarts, and answers 500 with the exhaustion
body whose `attempts` field is `MAX_RETRIES` and whose `message` is the
last attempt's error verbatim; no success body is returned. -/
theorem retry_exhaustion_behavior (cfg : Config) (bf : Nat → Backend)
    (req : HttpRequest) (f : UploadedFile)
    (hf : req.file = some f) (hname : ¬ f.filename = "")
    (hfail : ∀ n, 1 ≤ n → n ≤ MAX_RETRIES →
      ∃ e, (do_transcription cfg (bf n)
        ((request_params req f).toArgs n)).fst = .error e) :
    ∃ elast,
      (do_transcription cfg (bf MAX_RETRIES)
        ((request_params req f).toArgs MAX_RETRIES)).fst = .error elast ∧
      (transcribe cfg bf req).fst =
        (500, .exhausted "Transcription failed after all retries" elast
          MAX_RETRIES) ∧
      count_attempts (transcribe cfg bf req).snd = MAX_RETRIES ∧
      count_restarts (transcribe cfg bf req).snd = MAX_RETRIES - 1 := by
  obtain ⟨elast, helast, hfst, hca, hcr⟩ :=
    transcribe_loop_all_fail cfg bf (request_params req f) MAX_RETRIES 1 none
      (by decide) (by decide) hfail
  refine ⟨elast, helast, ?_, ?_, ?_⟩ <;>
    rw [transcribe, hf] <;> dsimp only <;> rw [if_neg hname] <;> dsimp only
  · exact hfst
  · rw [count_attempts] at hca ⊢
    simp only [List.countP_append, List.countP_cons, List.countP_nil,
      Ev.isInvoke, hca]
    simp
  · rw [count_restarts] at hcr ⊢
    simp only [List.countP_append, List.countP_cons, List.countP_nil,
      Ev.isRestart, hcr]
    simp

/-- An always-raising backend fails the dispatcher with its message. -/
theorem do_transcription_failBackend (cfg : Config) (msg : String)
    (a : AttemptArgs) :
    (do_transcription cfg (failBackend msg) a).fst = .error msg := rfl

/-- C2 witness: the always-failing backend family at the concrete
request. -/
theorem retry_exhaustion_behavior_witness :
    ∃ elast,
      (do_transcription cudaConfig (alwaysFail MAX_RETRIES)
        ((request_params okRequest okFile).toArgs MAX_RETRIES)).fst =
        .error elast ∧
      (transcribe cudaConfig alwaysFail okRequest).fst =
        (500, .exhausted "Transcription failed after all retries" elast
          MAX_RETRIES) ∧
      count_attempts (transcribe cudaConfig alwaysFail okRequest).snd =
        MAX_RETRIES ∧
      count_restarts (transcribe cudaConfig alwaysFail okRequest).snd =
        MAX_RETRIES - 1 :=
  retry_exhaustion_behavior cudaConfig alwaysFail okRequest okFile rfl
    (by decide)
    (fun n _ _ =>
      ⟨"CUDA error in attempt " ++ toString n,
       do_transcription_failBackend cudaConfig _ _⟩)

/-- C3 witness: the prompt of the concrete attempt's backend call. -/
theorem format_hint_always_prefixed_witness :
    (witnessArgs.user_prompt ≠ "" →
      FORMAT_PROMPT ++ " " ++ "Gastroskopie" =
        FORMAT_PROMPT ++ " " ++ witnessArgs.user_prompt) ∧
    (witnessArgs.user_prompt = "" →
      FORMAT_PROMPT ++ " " ++ "Gastroskopie" = FORMAT_PROMPT) ∧
    (∃ rest, FORMAT_PROMPT ++ " " ++ "Gastroskopie" = FORMAT_PROMPT ++ rest) :=
  format_hint_always_prefixed cudaConfig okBackend witnessArgs 1 "turbo" "de"
    (FORMAT_PROMPT ++ " " ++ "Gastroskopie") (by decide)

/-- C4 witness: mode of the concrete attempt's backend call. -/
theorem turbo_mode_selection_witness :
    ("turbo" = "turbo" ↔
      witnessArgs.speed_mode = "turbo" ∨
        (witnessArgs.speed_mode = "auto" ∧
          str_contains "turbo" (py_lower cudaConfig.model_name) = true)) ∧
    (witnessArgs.speed_mode = "precision" → "turbo" = "precision") :=
  turbo_mode_selection cudaConfig okBackend witnessArgs 1 "turbo" "de"
    (FORMAT_PROMPT ++ " " ++ "Gastroskopie") (by decide)

/-- C7 witness: a two-call sequence, one with all steps fine and one
with a raising cache release. -/
theorem clear_vram_total_endpoint_defined_witness :
    (clear_vram cudaConfig goodSteps = true ↔
      ∃ u, clear_vram_steps cudaConfig goodSteps = .ok u) ∧
    (clear_vram cudaConfig goodSteps = false ↔
      ∃ e, clear_vram_steps cudaConfig goodSteps = .error e) ∧
    ∀ c ∈ [goodSteps, badSteps],
      (clear_vram_endpoint cudaConfig c).fst = 200 ∧
      ((clear_vram_endpoint cudaConfig c).snd.status = "success" ∨
       (clear_vram_endpoint cudaConfig c).snd.status = "partial") :=
  clear_vram_total_endpoint_defined cudaConfig [goodSteps, badSteps] goodSteps

/-- C8 witness: the first and second attempt of the concrete failing
request carry the same payload. -/
theorem retry_payload_immutable_witness :
    ((request_params okRequest okFile).toArgs 1).file_content =
      ((request_params okRequest okFile).toArgs 2).file_content ∧
    ((request_params okRequest okFile).toArgs 1).filename =
      ((request_params okRequest okFile).toArgs 2).filename ∧
    ((request_params okRequest okFile).toArgs 1).language =
      ((request_params okRequest okFile).toArgs 2).language ∧
    ((request_params okRequest okFile).toArgs 1).do_align =
      ((request_params okRequest okFile).toArgs 2).do_align ∧
    ((request_params okRequest okFile).toArgs 1).speed_mode =
      ((request_params okRequest okFile).toArgs 2).speed_mode ∧
    ((request_params okRequest okFile).toArgs 1).user_prompt =
      ((request_params okRequest okFile).toArgs 2).user_prompt :=
  retry_payload_immutable cudaConfig alwaysFail okRequest
    ((request_params okRequest okFile).toArgs 1)
    ((request_params okRequest okFile).toArgs 2)
    (by decide) (by decide)

/-- C9 witness: the concrete successful turbo run's text. -/
theorem success_text_joins_segments_witness :
    witnessSuccess.text = py_strip (String.intercalate " "
      (witnessSuccess.segments.map fun seg => seg.text.getD "")) ∧
    (witnessSuccess.segments = [] → witnessSuccess.text = "") :=
  success_text_joins_segments cudaConfig okBackend witnessArgs witnessSuccess
    (by decide)

end WhisperService
